import Mathlib

/-!
Verification of the rollbar-go delivery subsystem against its specification.

The definitions below are a shallow embedding of the Go source:
  * transforms.go : the error-chain walker (errorBody, getCause,
    getOrBuildStack, buildTrace, errorClass) and fingerprint accumulation;
  * base_transport.go : baseTransport.post and its failure classification;
  * sync_transport.go : SyncTransport.Send / doSend (rate limiting, retries);
  * async_transport.go : AsyncTransport.Send and the background worker loop.

Impure inputs of the Go code (the wall clock, the network, the runtime stack
extractor, the select-statement scheduling choice) are passed as explicit
oracle arguments.  Go slices are modelled as lists, Go maps carrying payload
bodies are opaque (only their marshallability matters to the code under
study), and IO effects (HTTP POST, writing a payload to the diagnostic sink)
are recorded in an explicit event trace.
-/

namespace Rollbar

/-! ## Error-chain model (transforms.go) -/

/-- One call-stack location as captured by the stack extractor. -/
structure Frame where
  filename : String
  method : String
  line : Nat
deriving DecidableEq, Repr

/-- A stack is an ordered sequence of frames.  A nil Go slice and an empty
Go slice both denote the empty sequence. -/
abbrev Stack := List Frame

/-- A Go error value as seen by the chain walker.  `plain` is an error type
implementing neither `Cause()` nor `Stack()`; `cs` is an error type
implementing the `CauseStacker` interface (rollbar.go), whose `Stack()`
accessor may return nil (`none`) and whose `Cause()` may return nil
(`none`).  The inductive structure makes every cause chain finite, which is
exactly the hypothesis of the chain-length claim. -/
inductive GoError where
  | plain (msg : String)
  | cs (msg : String) (stack : Option Stack) (cause : Option GoError)

/-- transforms.go getCause: the `Cause()` of a `CauseStacker`, nil otherwise.
The argument is an `Option` because the Go `error` interface value can be
nil. -/
def getCause : Option GoError → Option GoError
  | some (.cs _ _ c) => c
  | _ => none

/-- transforms.go getOrBuildStack.  `bs` is the stack the extractor
(BuildStack with the proper skip) would capture at the call site.  The Go
code: a `CauseStacker` whose `Stack()` is non-nil supplies its own stack; a
`CauseStacker` with a nil stack falls through to the empty stack; a
non-`CauseStacker` gets a freshly captured stack when the parent is not a
`CauseStacker`, and the empty stack when it is. -/
def getOrBuildStack (bs : Stack) (err parent : Option GoError) : Stack :=
  match err with
  | some (.cs _ os _) =>
    match os with
    | some s => s
    | none => []
  | _ =>
    match parent with
    | some (.cs _ _ _) => []
    | _ => bs

/-- The constant title used for nil error values, defined in the package
facade of the repository as the string printed for a nil Go value. -/
def nilErrTitle : String := "<nil>"

/-- transforms.go errorClass helper: the adler32 checksum used to label
anonymous error values. -/
def adler32 (s : String) : Nat :=
  let p := s.toUTF8.toList.foldl
    (fun ab c =>
      ((ab.1 + c.toNat) % 65521, (ab.2 + (ab.1 + c.toNat) % 65521) % 65521))
    (1, 0)
  p.2 * 65536 + p.1

/-- One lowercase digit character, also covering hexadecimal digits. -/
def hexDigit (n : Nat) : Char :=
  if n < 10 then Char.ofNat (48 + n) else Char.ofNat (87 + n)

/-- Digit list of a number in the given base, most significant first, by
fuel-based recursion on the quotient. -/
def digitsAux (base : Nat) : Nat → Nat → List Char
  | 0, _ => []
  | fuel + 1, n =>
    if n = 0 then []
    else digitsAux base fuel (n / base) ++ [hexDigit (n % base)]

/-- Lowercase hexadecimal rendering used by the %x format verb; zero is
rendered as the single digit 0. -/
def hexString (n : Nat) : String :=
  if n = 0 then "0" else String.mk (digitsAux 16 (n + 1) n)

/-- Decimal rendering of a natural number, used for line numbers inside
frame identities. -/
def decString (n : Nat) : String :=
  if n = 0 then "0" else String.mk (digitsAux 10 (n + 1) n)

/-- transforms.go errorClass: plain error values (reflect type
errors.errorString) are labelled by a bracketed checksum of their message;
the model collapses all `CauseStacker` implementations to a single named
type, whose reflect name stands here as a fixed string. -/
def errorClass : Option GoError → String
  | none => nilErrTitle
  | some (.plain m) => "\x7b" ++ hexString (adler32 m) ++ "\x7d"
  | some (.cs _ _ _) => "CauseStacker"

/-- One element of the trace chain, as built by transforms.go buildTrace:
the frames plus the exception class and message. -/
structure TraceEntry where
  frames : Stack
  className : String
  message : String
deriving DecidableEq, Repr

/-- transforms.go buildTrace. -/
def buildTrace (err : Option GoError) (stack : Stack) : TraceEntry :=
  { frames := stack
    className := errorClass err
    message :=
      match err with
      | none => nilErrTitle
      | some (.plain m) => m
      | some (.cs m _ _) => m }

/-- Modelled from the spec: `Stack.Fingerprint` is not under src (only its
call in transforms.go line 129 and its uses in the in-src tests are).
Spec section 4.1: concatenate per-frame identity (file path, line number,
function name) across all frames, then reduce to a bounded-length
deterministic, order-sensitive, non-cryptographic checksum string.  The
model uses a rolling checksum of the concatenated identities rendered in
hexadecimal; on the empty stack the checksum of zero bytes renders as the
string 0, the value the in-src tests pin for the empty-stack fingerprint
(rollbar_test.go lines 600 and 1172 expect a chain fingerprint ending in
0 for a tail entry whose stack is empty). -/
def stackFingerprint (s : Stack) : String :=
  hexString
    ((String.join
        (s.map (fun f => f.filename ++ decString f.line ++ f.method))).data.foldl
      (fun h c => (h * 31 + c.toNat) % 4294967296) 0)

/-- The body of the transforms.go errorBody loop, one recursive call per
chain element.  The current error is processed, then the walk continues on
its cause with the current error as parent, exactly as the source loop
updates `parent = err; err = getCause(err)` and breaks on nil. -/
def errorChain (fpEnabled : Bool) (bs : Stack) :
    GoError → Option GoError → List TraceEntry × String
  | .plain m, parent =>
    let stack := getOrBuildStack bs (some (.plain m)) parent
    ([buildTrace (some (.plain m)) stack],
     if fpEnabled then stackFingerprint stack else "")
  | .cs m os none, parent =>
    let stack := getOrBuildStack bs (some (.cs m os none)) parent
    ([buildTrace (some (.cs m os none)) stack],
     if fpEnabled then stackFingerprint stack else "")
  | .cs m os (some c), parent =>
    let stack := getOrBuildStack bs (some (.cs m os (some c))) parent
    let rest := errorChain fpEnabled bs c (some (.cs m os (some c)))
    (buildTrace (some (.cs m os (some c))) stack :: rest.1,
     (if fpEnabled then stackFingerprint stack else "") ++ rest.2)

/-- The slice of the configuration read by errorBody: whether fingerprints
are enabled. -/
structure Configuration where
  fingerprint : Bool
deriving DecidableEq, Repr

/-- transforms.go errorBody: walks the cause chain building the trace chain
and the combined fingerprint.  A nil initial error still produces one entry
(the loop body runs once before getCause returns nil). -/
def errorBody (cfg : Configuration) (bs : Stack) (err : Option GoError) :
    List TraceEntry × String :=
  match err with
  | some e => errorChain cfg.fingerprint bs e none
  | none =>
    let stack := getOrBuildStack bs none none
    ([buildTrace none stack],
     if cfg.fingerprint then stackFingerprint stack else "")

/-- The number of links of a cause chain: one for the error itself plus one
per cause link.  Used to state the chain-length claim. -/
def causeChainLength : GoError → Nat
  | .plain _ => 1
  | .cs _ _ none => 1
  | .cs _ _ (some c) => causeChainLength c + 1

/-- The messages along a cause chain, originally reported error first,
deepest cause last.  Used to state the chain-order claim. -/
def chainMessages : GoError → List String
  | .plain m => [m]
  | .cs m _ none => [m]
  | .cs m _ (some c) => m :: chainMessages c

/-! ## Transport model (base_transport.go, sync_transport.go) -/

/-- A payload body as the transport sees it: an opaque map whose only
property read by the code under study is whether json.Marshal succeeds on
it. -/
structure Body where
  marshalOk : Bool
deriving DecidableEq, Repr

/-- The outcome the outside world gives one attempted HTTP POST: either a
response with a status code, or a network-level error together with the
verdict of the isTemporary classifier.  `isTemporary` itself is not under
src; per the spec classification table, network-level errors carry their
temporary-or-not classification, which the oracle supplies as data. -/
inductive PostOutcome where
  | status (code : Nat)
  | netErr (temporary : Bool)
deriving DecidableEq, Repr

/-- The errors produced by the transports.  The first four mirror the
delivery failures of base_transport.go (json encoding failure, network
error, non-200 HTTP status); the last three are the enqueue-time results of
the asynchronous Send (ErrBufferFull, ErrChannelClosed, and the error of a
done cancellation context). -/
inductive SendError where
  | encoding
  | network (temporary : Bool)
  | http (code : Nat)
  | bufferFull
  | channelClosed
  | contextCanceled
deriving DecidableEq, Repr

/-- Externally visible IO effects of the delivery subsystem that the claims
mention: performing an HTTP POST, and writing a payload to the fallback
diagnostic sink (writePayloadToStderr, whose implementation is not under
src; the event records the call). -/
inductive Event where
  | httpPost
  | stderrPayload
deriving DecidableEq, Repr

/-- Result triple of baseTransport.post: the canRetry flag, the error, and
the IO events performed. -/
structure PostResult where
  canRetry : Bool
  err : Option SendError
  events : List Event
deriving DecidableEq, Repr

/-- base_transport.go post (lines 79-108): an empty token is a silent
no-op before any marshalling or network IO; a marshal failure is a
permanent error with no POST performed; a network error is classified by
isTemporary; a non-200 status is permanent unless it is 429. -/
def post (token : String) (b : Body) (o : PostOutcome) : PostResult :=
  if token.length = 0 then
    { canRetry := false, err := none, events := [] }
  else if b.marshalOk = false then
    { canRetry := false, err := some .encoding, events := [] }
  else
    match o with
    | .netErr temporary =>
      { canRetry := temporary, err := some (.network temporary), events := [.httpPost] }
    | .status code =>
      if code ≠ 200 then
        { canRetry := code == 429, err := some (.http code), events := [.httpPost] }
      else
        { canRetry := false, err := none, events := [.httpPost] }

/-- The mutable fields of baseTransport read and written by the delivery
logic.  Time instants are rationals standing for the float seconds of the
Go code. -/
structure TransportCore where
  token : String
  itemsPerMinute : Nat
  perMinCounter : Nat
  startTime : ℚ
  retryAttempts : Nat
  printPayloadOnError : Bool
deriving DecidableEq, Repr

/-- Modelled from the spec: the rate-limit gate `baseTransport.shouldSend`
is not under src (only its callers in sync_transport.go and
async_transport.go and its tests are).  Spec section 4.4: if the configured
items-per-minute limit is non-zero and the counter has reached it, the
network call is skipped for this item; the tests in src confirm this
semantics (TestSyncTransportNotSend, TestAsyncTransportNotSend). -/
def shouldSend (s : TransportCore) : Bool :=
  if s.itemsPerMinute ≠ 0 ∧ s.itemsPerMinute ≤ s.perMinCounter then false else true

/-- The window-reset block duplicated at the top of SyncTransport.doSend
(sync_transport.go lines 39-43) and of the async worker loop
(async_transport.go lines 75-79): when the elapsed time since the window
start is negative or at least 60 seconds, the window start is reset to now
and the per-minute counter to zero. -/
def windowReset (now : ℚ) (s : TransportCore) : TransportCore :=
  if now - s.startTime < 0 ∨ 60 ≤ now - s.startTime then
    { s with startTime := now, perMinCounter := 0 }
  else
    s

/-- The optional write of the payload to the diagnostic sink performed on
terminal failures when PrintPayloadOnError is set. -/
def stderrEv (s : TransportCore) : List Event :=
  if s.printPayloadOnError then [.stderrPayload] else []

/-- sync_transport.go doSend (lines 38-59).  `times d` and `net d` are the
wall-clock reading and the network outcome seen by the recursion level that
is `d` attempts deep; each recursive retry re-reads the clock and re-posts,
exactly as the source recurses into itself with `retriesLeft - 1`.  The two
arms are the Go guard `!canRetry || retriesLeft <= 0` unrolled on whether
any retry budget is left: with a zero budget every failure is dropped, with
a positive budget a retryable failure recurses with the budget decremented
by one. -/
def doSend (times : Nat → ℚ) (net : Nat → PostOutcome) (b : Body) :
    Nat → TransportCore → Nat → TransportCore × Option SendError × List Event
  | d, s0, 0 =>
    let s := windowReset (times d) s0
    if shouldSend s then
      let res := post s.token b (net d)
      match res.err with
      | none => ({ s with perMinCounter := s.perMinCounter + 1 }, none, res.events)
      | some e => (s, some e, res.events ++ stderrEv s)
    else
      (s, none, [])
  | d, s0, rl + 1 =>
    let s := windowReset (times d) s0
    if shouldSend s then
      let res := post s.token b (net d)
      match res.err with
      | none => ({ s with perMinCounter := s.perMinCounter + 1 }, none, res.events)
      | some e =>
        if res.canRetry then
          let r := doSend times net b (d + 1) s rl
          (r.1, r.2.1, res.events ++ r.2.2)
        else
          (s, some e, res.events ++ stderrEv s)
    else
      (s, none, [])

/-- sync_transport.go Send (lines 34-36): doSend with the configured number
of retry attempts. -/
def syncSend (times : Nat → ℚ) (net : Nat → PostOutcome) (b : Body)
    (s : TransportCore) : TransportCore × Option SendError × List Event :=
  doSend times net b 0 s s.retryAttempts

/-- A sequence of consecutive synchronous sends of the same body, each one
seeing the same wall-clock instant and the same network outcome; used to
state the rate-limiter scenario of spec section 8. -/
def iterSend (t : ℚ) (o : PostOutcome) (b : Body) :
    Nat → TransportCore → TransportCore × List Event
  | 0, s => (s, [])
  | k + 1, s =>
    let r := syncSend (fun _ => t) (fun _ => o) b s
    let rest := iterSend t o b k r.1
    (rest.1, r.2.2 ++ rest.2)

/-! ## Asynchronous transport model (async_transport.go) -/

/-- One queued element of the buffered channel: the body together with its
remaining retry budget (the payload struct of async_transport.go). -/
structure QItem where
  body : Body
  retriesLeft : Nat
deriving DecidableEq, Repr

/-- The state of one AsyncTransport: the baseTransport fields, the channel
capacity (Buffer), the channel contents, whether the channel has been
closed, whether the cancellation context is done, and the waitgroup
counter. -/
structure AsyncState where
  core : TransportCore
  buffer : Nat
  queue : List QItem
  closed : Bool
  ctxDone : Bool
  pending : Nat
deriving DecidableEq, Repr

/-- async_transport.go Send (lines 121-157).  `selCancel` resolves the
select statement when more than one case is ready: when the context is done
the runtime may take either the cancellation case or the channel-send case,
and `selCancel = true` models the run in which it takes the cancellation
case.  Sending on a closed channel panics in Go; the deferred recover of
Send then returns ErrChannelClosed exactly when isClosed observes the
closed channel, which requires the channel to be empty - with items still
buffered, isClosed reports false and the recovered Send returns nil. -/
def asyncSend (selCancel : Bool) (b : Body) (s : AsyncState) :
    AsyncState × Option SendError × List Event :=
  if s.queue.length < s.buffer then
    let s := { s with pending := s.pending + 1 }
    let p : QItem := { body := b, retriesLeft := s.core.retryAttempts }
    if s.ctxDone && selCancel then
      (s, some .contextCanceled, [.stderrPayload])
    else if s.closed then
      if s.queue.length = 0 then
        ({ s with pending := s.pending - 1 }, some .channelClosed, [])
      else
        (s, none, [])
    else
      ({ s with queue := s.queue ++ [p] }, none, [])
  else
    (s, some .bufferFull, stderrEv s.core)

/-- Whether the background worker keeps looping after processing an item or
returns (exiting the goroutine), as it does on the cancellation path. -/
inductive WorkerOutcome where
  | next
  | exited
deriving DecidableEq, Repr

/-- The body of the background worker loop of NewAsyncTransport
(async_transport.go lines 74-114), processing one item `p` already taken
from the channel.  `s.queue` is the channel content at the moment the
re-enqueue select runs (concurrent producers may have refilled the channel
after `p` was dequeued, which is how the full-channel default branch of the
source is reached).  `selCancel` resolves the re-enqueue select when the
context is done and the channel also has room. -/
def processItem (now : ℚ) (net : PostOutcome) (selCancel : Bool) (p : QItem)
    (s : AsyncState) : AsyncState × List Event × WorkerOutcome :=
  let core := windowReset now s.core
  if shouldSend core then
    let res := post core.token p.body net
    match res.err with
    | none =>
      ({ s with
          core := { core with perMinCounter := core.perMinCounter + 1 }
          pending := s.pending - 1 },
       res.events, .next)
    | some _ =>
      if res.canRetry ∧ 0 < p.retriesLeft then
        let p := { p with retriesLeft := p.retriesLeft - 1 }
        if s.ctxDone && selCancel then
          ({ s with core := core, pending := s.pending - 1 },
           res.events ++ [.stderrPayload], .exited)
        else if s.queue.length < s.buffer then
          ({ s with core := core, queue := s.queue ++ [p] },
           res.events, .next)
        else
          ({ s with core := core, pending := s.pending - 1 },
           res.events ++ stderrEv core, .next)
      else
        ({ s with core := core, pending := s.pending - 1 },
         res.events ++ stderrEv core, .next)
  else
    ({ s with core := core, pending := s.pending - 1 }, [], .next)

/-! ## Helper lemmas: the chain walker -/

/-- The concatenation, in order, of the stack fingerprints of a list of
trace entries. -/
def concatFingerprints : List TraceEntry → String
  | [] => ""
  | t :: rest => stackFingerprint t.frames ++ concatFingerprints rest

theorem errorChain_messages (fp : Bool) (bs : Stack) :
    ∀ (e : GoError) (parent : Option GoError),
      ((errorChain fp bs e parent).1).map TraceEntry.message = chainMessages e
  | .plain _, _ => by simp [errorChain, chainMessages, buildTrace]
  | .cs _ _ none, _ => by simp [errorChain, chainMessages, buildTrace]
  | .cs m os (some c), parent => by
    have ih := errorChain_messages fp bs c (some (.cs m os (some c)))
    simp [errorChain, chainMessages, buildTrace, ih]

theorem chainMessages_length :
    ∀ e : GoError, (chainMessages e).length = causeChainLength e
  | .plain _ => rfl
  | .cs _ _ none => rfl
  | .cs m os (some c) => by
    simp [chainMessages, causeChainLength, chainMessages_length c]

theorem one_le_causeChainLength : ∀ e : GoError, 1 ≤ causeChainLength e
  | .plain _ => le_refl 1
  | .cs _ _ none => le_refl 1
  | .cs m os (some c) => by
    simp only [causeChainLength]
    omega

theorem errorChain_snd_concat (bs : Stack) :
    ∀ (e : GoError) (parent : Option GoError),
      (errorChain true bs e parent).2
        = concatFingerprints (errorChain true bs e parent).1
  | .plain _, _ => by
    simp [errorChain, concatFingerprints, buildTrace]
  | .cs _ _ none, _ => by
    simp [errorChain, concatFingerprints, buildTrace]
  | .cs m os (some c), parent => by
    have ih := errorChain_snd_concat bs c (some (.cs m os (some c)))
    simp [errorChain, concatFingerprints, buildTrace, ih]

theorem stackFingerprint_nil : stackFingerprint [] = "0" := by decide

/-! ## Helper lemmas: the synchronous transport -/

theorem windowReset_eq_self {now : ℚ} {s : TransportCore}
    (h1 : 0 ≤ now - s.startTime) (h2 : now - s.startTime < 60) :
    windowReset now s = s := by
  unfold windowReset
  rw [if_neg]
  push_neg
  exact ⟨by linarith, by linarith⟩

theorem windowReset_token (now : ℚ) (s : TransportCore) :
    (windowReset now s).token = s.token := by
  unfold windowReset
  split <;> rfl

theorem post_empty_token (token : String) (b : Body) (o : PostOutcome)
    (h : token.length = 0) :
    post token b o = ⟨false, none, []⟩ := by
  unfold post
  rw [if_pos h]

theorem post_encoding (token : String) (b : Body) (o : PostOutcome)
    (ht : token.length ≠ 0) (hm : b.marshalOk = false) :
    post token b o = ⟨false, some .encoding, []⟩ := by
  unfold post
  rw [if_neg ht, if_pos hm]

theorem post_ok (token : String) (b : Body)
    (ht : token.length ≠ 0) (hm : b.marshalOk = true) :
    post token b (.status 200) = ⟨false, none, [.httpPost]⟩ := by
  unfold post
  rw [if_neg ht, if_neg (by simp [hm])]
  rfl

theorem post_status (token : String) (b : Body) (c : Nat)
    (ht : token.length ≠ 0) (hm : b.marshalOk = true) (hc : c ≠ 200) :
    post token b (.status c) = ⟨c == 429, some (.http c), [.httpPost]⟩ := by
  unfold post
  rw [if_neg ht, if_neg (by simp [hm])]
  simp only [ne_eq, hc, not_false_eq_true, if_true]

theorem post_net (token : String) (b : Body) (temp : Bool)
    (ht : token.length ≠ 0) (hm : b.marshalOk = true) :
    post token b (.netErr temp) = ⟨temp, some (.network temp), [.httpPost]⟩ := by
  unfold post
  rw [if_neg ht, if_neg (by simp [hm])]

theorem doSend_skip (times : Nat → ℚ) (net : Nat → PostOutcome) (b : Body)
    (d : Nat) (s : TransportCore) (rl : Nat)
    (h : shouldSend (windowReset (times d) s) = false) :
    doSend times net b d s rl = (windowReset (times d) s, none, []) := by
  cases rl <;> (simp only [doSend]; simp [h])

theorem doSend_post_none (times : Nat → ℚ) (net : Nat → PostOutcome) (b : Body)
    (d : Nat) (s : TransportCore) (rl : Nat) (cr : Bool) (ev : List Event)
    (hs : shouldSend (windowReset (times d) s) = true)
    (hp : post (windowReset (times d) s).token b (net d) = ⟨cr, none, ev⟩) :
    doSend times net b d s rl =
      ({ windowReset (times d) s with
          perMinCounter := (windowReset (times d) s).perMinCounter + 1 },
       none, ev) := by
  cases rl <;> (simp only [doSend]; rw [hp]; simp [hs])

theorem doSend_drop (times : Nat → ℚ) (net : Nat → PostOutcome) (b : Body)
    (d : Nat) (s : TransportCore) (rl : Nat) (e : SendError) (ev : List Event)
    (hs : shouldSend (windowReset (times d) s) = true)
    (hp : post (windowReset (times d) s).token b (net d) = ⟨false, some e, ev⟩) :
    doSend times net b d s rl =
      (windowReset (times d) s, some e,
       ev ++ stderrEv (windowReset (times d) s)) := by
  cases rl <;> (simp only [doSend]; rw [hp]; simp [hs])

theorem doSend_retry_step (times : Nat → ℚ) (net : Nat → PostOutcome) (b : Body)
    (d : Nat) (s : TransportCore) (rl : Nat) (e : SendError) (ev : List Event)
    (hs : shouldSend (windowReset (times d) s) = true)
    (hp : post (windowReset (times d) s).token b (net d) = ⟨true, some e, ev⟩) :
    doSend times net b d s (rl + 1) =
      ((doSend times net b (d + 1) (windowReset (times d) s) rl).1,
       (doSend times net b (d + 1) (windowReset (times d) s) rl).2.1,
       ev ++ (doSend times net b (d + 1) (windowReset (times d) s) rl).2.2) := by
  simp only [doSend]
  rw [hp]
  simp [hs]

/-- With the clock inside the current window and every network outcome a
temporary failure, doSend performs one POST per remaining attempt and then
drops the item, writing it to the diagnostic sink. -/
theorem doSend_temp_exhaust (t : ℚ) (b : Body) (d : Nat) (s : TransportCore)
    (rl : Nat)
    (h1 : 0 ≤ t - s.startTime) (h2 : t - s.startTime < 60)
    (hs : shouldSend s = true) (ht : s.token.length ≠ 0)
    (hm : b.marshalOk = true) (hpp : s.printPayloadOnError = true) :
    doSend (fun _ => t) (fun _ => .netErr true) b d s rl =
      (s, some (.network true),
       List.replicate (rl + 1) .httpPost ++ [.stderrPayload]) := by
  induction rl generalizing d with
  | zero =>
    simp only [doSend]
    rw [windowReset_eq_self h1 h2, post_net s.token b true ht hm]
    simp [hs, stderrEv, hpp]
  | succ n ih =>
    have hstep := doSend_retry_step (fun _ => t) (fun _ => .netErr true) b d s n
      (.network true) [.httpPost]
      (by rw [windowReset_eq_self h1 h2]; exact hs)
      (by rw [windowReset_eq_self h1 h2]; exact post_net s.token b true ht hm)
    rw [hstep, windowReset_eq_self h1 h2, ih (d + 1)]
    simp [List.replicate_succ]

/-- The synchronous sends of the rate-limiter scenario: while the counter
stays below the nonzero limit, each send inside the window performs exactly
one POST and increments the counter by one, leaving the rest of the state
unchanged. -/
theorem iterSend_ok (t : ℚ) (b : Body) (s : TransportCore) (k : Nat)
    (ht0 : 0 ≤ t - s.startTime) (ht1 : t - s.startTime < 60)
    (htok : s.token.length ≠ 0) (hm : b.marshalOk = true)
    (hipm : s.itemsPerMinute ≠ 0)
    (hcnt : s.perMinCounter + k ≤ s.itemsPerMinute) :
    iterSend t (.status 200) b k s =
      ({ s with perMinCounter := s.perMinCounter + k },
       List.replicate k .httpPost) := by
  induction k generalizing s with
  | zero => simp [iterSend]
  | succ n ih =>
    have hw : windowReset t s = s := windowReset_eq_self ht0 ht1
    have hsend : shouldSend s = true := by
      unfold shouldSend
      rw [if_neg]
      intro hand
      omega
    have hone : syncSend (fun _ => t) (fun _ => .status 200) b s =
        ({ s with perMinCounter := s.perMinCounter + 1 }, none, [.httpPost]) := by
      have hd := doSend_post_none (fun _ => t) (fun _ => .status 200) b 0 s
        s.retryAttempts false [.httpPost]
        (by show shouldSend (windowReset t s) = true
            rw [hw]; exact hsend)
        (by show post (windowReset t s).token b (.status 200) = _
            rw [hw]; exact post_ok s.token b htok hm)
      unfold syncSend
      rw [hd, hw]
    have ihx := ih (s := { s with perMinCounter := s.perMinCounter + 1 })
      ht0 ht1 htok hipm
      (by show s.perMinCounter + 1 + n ≤ s.itemsPerMinute; omega)
    simp only [iterSend, hone]
    simp [ihx, List.replicate_succ, TransportCore.mk.injEq, Prod.mk.injEq]
    omega

theorem doSend_empty_token (times : Nat → ℚ) (net : Nat → PostOutcome)
    (b : Body) (d : Nat) (s : TransportCore) (rl : Nat)
    (h : s.token = "") :
    (doSend times net b d s rl).2 = (none, []) := by
  have htok : (windowReset (times d) s).token.length = 0 := by
    rw [windowReset_token, h]
    rfl
  by_cases hs : shouldSend (windowReset (times d) s) = true
  · rw [doSend_post_none times net b d s rl false []
      hs (post_empty_token _ b _ htok)]
  · rw [doSend_skip times net b d s rl (by simpa using hs)]

/-! ## Claims C2, C3, C7, C10 -/

/-- Claim C2: a send whose failure is classified temporary (a network
error classified temporary, or HTTP 429) is retried while retry budget
remains, the budget decreasing by one per retry, and is dropped with a
write to the diagnostic sink once the budget is exhausted; a failure
classified permanent (a json encoding failure, or a non-200 non-429
status) is dropped immediately with the same result for every retry
budget, hence consuming none of it. -/
theorem doSend_retry_policy (times : Nat → ℚ) (net : Nat → PostOutcome)
    (b : Body) (d : Nat) (s : TransportCore) (rl : Nat) (t : ℚ) :
    ((net d = .netErr true ∨ net d = .status 429) →
     shouldSend (windowReset (times d) s) = true →
     (windowReset (times d) s).token.length ≠ 0 →
     b.marshalOk = true →
     doSend times net b d s (rl + 1)
       = ((doSend times net b (d + 1) (windowReset (times d) s) rl).1,
          (doSend times net b (d + 1) (windowReset (times d) s) rl).2.1,
          .httpPost ::
            (doSend times net b (d + 1) (windowReset (times d) s) rl).2.2))
  ∧ (∀ code : Nat, net d = .status code → code ≠ 200 → code ≠ 429 →
     shouldSend (windowReset (times d) s) = true →
     (windowReset (times d) s).token.length ≠ 0 →
     b.marshalOk = true →
     doSend times net b d s rl
       = (windowReset (times d) s, some (.http code),
          .httpPost :: stderrEv (windowReset (times d) s)))
  ∧ (b.marshalOk = false →
     shouldSend (windowReset (times d) s) = true →
     (windowReset (times d) s).token.length ≠ 0 →
     doSend times net b d s rl
       = (windowReset (times d) s, some .encoding,
          stderrEv (windowReset (times d) s)))
  ∧ (0 ≤ t - s.startTime → t - s.startTime < 60 →
     shouldSend s = true → s.token.length ≠ 0 → b.marshalOk = true →
     s.printPayloadOnError = true →
     doSend (fun _ => t) (fun _ => .netErr true) b d s rl
       = (s, some (.network true),
          List.replicate (rl + 1) .httpPost ++ [.stderrPayload])) := by
  refine ⟨?_, ?_, ?_, ?_⟩
  · rintro (hn | hn) hs ht hm
    · have hp : post (windowReset (times d) s).token b (net d)
          = ⟨true, some (.network true), [.httpPost]⟩ := by
        rw [hn]
        exact post_net _ b true ht hm
      exact doSend_retry_step times net b d s rl (.network true) [.httpPost] hs hp
    · have hp : post (windowReset (times d) s).token b (net d)
          = ⟨true, some (.http 429), [.httpPost]⟩ := by
        rw [hn, post_status _ b 429 ht hm (by norm_num)]
        norm_num
      exact doSend_retry_step times net b d s rl (.http 429) [.httpPost] hs hp
  · intro code hn h200 h429 hs ht hm
    have hbe : (code == 429) = false := by simpa using h429
    have hp : post (windowReset (times d) s).token b (net d)
        = ⟨false, some (.http code), [.httpPost]⟩ := by
      rw [hn, post_status _ b code ht hm h200, hbe]
    exact doSend_drop times net b d s rl (.http code) [.httpPost] hs hp
  · intro hm hs ht
    have hp : post (windowReset (times d) s).token b (net d)
        = ⟨false, some .encoding, []⟩ := post_encoding _ b _ ht hm
    exact doSend_drop times net b d s rl .encoding [] hs hp
  · intro h1 h2 hs ht hm hpp
    exact doSend_temp_exhaust t b d s rl h1 h2 hs ht hm hpp

/-- Witness for claim C2 at a concrete input: with a three-attempt budget
and every outcome a temporary network failure, four POSTs happen and the
item is then dropped to the diagnostic sink. -/
theorem doSend_retry_policy_witness :
    doSend (fun _ => (30 : ℚ)) (fun _ => .netErr true) ⟨true⟩ 0
      ⟨"t", 0, 0, 0, 3, true⟩ 3
      = (⟨"t", 0, 0, 0, 3, true⟩, some (.network true),
         List.replicate 4 .httpPost ++ [.stderrPayload]) := by
  have h := (doSend_retry_policy (fun _ => (30 : ℚ)) (fun _ => .netErr true)
    ⟨true⟩ 0 ⟨"t", 0, 0, 0, 3, true⟩ 3 30).2.2.2
  exact h (by norm_num) (by norm_num) (by decide) (by decide) rfl rfl

/-- Claim C3: with a nonzero per-minute limit N, counter at zero, and the
clock inside the window, the first N sends each perform one POST and raise
the counter to N, and the next send is skipped entirely: no event, nil
error, state unchanged, hence no retry and still counted as processed.
The counter moves only on a successful (nil-error) post outcome; when at
least 60 seconds have elapsed since the window start (or the elapsed time
is negative) the window start is reset to now and the counter to zero.
The background worker applies the same gate: when shouldSend is false the
item is dropped with no events and the pending count decremented. -/
theorem rate_limiter_claim (t : ℚ) (b : Body) (s : TransportCore) (N : Nat)
    (hN : s.itemsPerMinute = N) (hN0 : N ≠ 0) (hc0 : s.perMinCounter = 0)
    (ht0 : 0 ≤ t - s.startTime) (ht1 : t - s.startTime < 60)
    (htok : s.token.length ≠ 0) (hm : b.marshalOk = true) :
    iterSend t (.status 200) b N s
      = ({ s with perMinCounter := N }, List.replicate N .httpPost)
  ∧ syncSend (fun _ => t) (fun _ => .status 200) b
      { s with perMinCounter := N }
      = ({ s with perMinCounter := N }, none, [])
  ∧ (∀ (times : Nat → ℚ) (net : Nat → PostOutcome) (d rl : Nat)
       (s1 : TransportCore) (e : SendError) (ev : List Event),
       shouldSend (windowReset (times d) s1) = true →
       post (windowReset (times d) s1).token b (net d) = ⟨false, some e, ev⟩ →
       (doSend times net b d s1 rl).1.perMinCounter
         = (windowReset (times d) s1).perMinCounter)
  ∧ (∀ (times : Nat → ℚ) (net : Nat → PostOutcome) (d rl : Nat)
       (s1 : TransportCore) (cr : Bool) (ev : List Event),
       shouldSend (windowReset (times d) s1) = true →
       post (windowReset (times d) s1).token b (net d) = ⟨cr, none, ev⟩ →
       (doSend times net b d s1 rl).1.perMinCounter
         = (windowReset (times d) s1).perMinCounter + 1)
  ∧ (∀ (t2 : ℚ) (s2 : TransportCore), 60 ≤ t2 - s2.startTime →
       windowReset t2 s2 = { s2 with startTime := t2, perMinCounter := 0 })
  ∧ (∀ (now : ℚ) (np : PostOutcome) (sel : Bool) (p : QItem) (a1 : AsyncState),
       shouldSend (windowReset now a1.core) = false →
       processItem now np sel p a1
         = ({ a1 with
                core := windowReset now a1.core
                pending := a1.pending - 1 }, [], .next)) := by
  refine ⟨?_, ?_, ?_, ?_, ?_, ?_⟩
  · have := iterSend_ok t b s N ht0 ht1 htok hm (by omega) (by omega)
    rw [this, hc0, Nat.zero_add]
  · have hskip : shouldSend { s with perMinCounter := N } = false := by
      unfold shouldSend
      rw [if_pos]
      exact ⟨by simpa [hN] using hN0, by simp [hN]⟩
    have hw : windowReset t { s with perMinCounter := N }
        = { s with perMinCounter := N } :=
      windowReset_eq_self (by simpa using ht0) (by simpa using ht1)
    unfold syncSend
    rw [doSend_skip _ _ b 0 _ _ (by rw [hw]; exact hskip), hw]
  · intro times net d rl s1 e ev hs hp
    rw [doSend_drop times net b d s1 rl e ev hs hp]
  · intro times net d rl s1 cr ev hs hp
    rw [doSend_post_none times net b d s1 rl cr ev hs hp]
  · intro t2 s2 h
    unfold windowReset
    rw [if_pos (Or.inr h)]
  · intro now np sel p a1 h
    simp [processItem, h]

/-- Witness for claim C3 at a concrete input: limit one item per minute,
two sends in the same window; the first posts, the second is skipped. -/
theorem rate_limiter_claim_witness :
    iterSend 30 (.status 200) ⟨true⟩ 1 ⟨"t", 1, 0, 0, 3, true⟩
      = (⟨"t", 1, 1, 0, 3, true⟩, List.replicate 1 .httpPost)
  ∧ syncSend (fun _ => (30 : ℚ)) (fun _ => .status 200) ⟨true⟩
      ⟨"t", 1, 1, 0, 3, true⟩
      = (⟨"t", 1, 1, 0, 3, true⟩, none, []) := by
  have h := rate_limiter_claim 30 ⟨true⟩ ⟨"t", 1, 0, 0, 3, true⟩ 1
    rfl (by decide) rfl (by norm_num) (by norm_num) (by decide) rfl
  exact ⟨h.1, h.2.1⟩

/-- Claim C7: with an empty access token the synchronous Send returns nil
and performs no IO at all - no HTTP request, no retry, no sink write - and
the asynchronous worker likewise performs no IO when it processes an item
while the token is empty. -/
theorem send_empty_token_noop (times : Nat → ℚ) (net : Nat → PostOutcome)
    (b : Body) (s : TransportCore) (h : s.token = "") :
    (syncSend times net b s).2.1 = none
  ∧ (syncSend times net b s).2.2 = []
  ∧ (∀ (now : ℚ) (np : PostOutcome) (sel : Bool) (p : QItem) (a1 : AsyncState),
       a1.core.token = "" → (processItem now np sel p a1).2.1 = []) := by
  have h2 := doSend_empty_token times net b 0 s s.retryAttempts h
  refine ⟨?_, ?_, ?_⟩
  · unfold syncSend
    rw [show (doSend times net b 0 s s.retryAttempts).2.1
          = ((doSend times net b 0 s s.retryAttempts).2).1 from rfl, h2]
  · unfold syncSend
    rw [show (doSend times net b 0 s s.retryAttempts).2.2
          = ((doSend times net b 0 s s.retryAttempts).2).2 from rfl, h2]
  · intro now np sel p a1 ha
    have htok : (windowReset now a1.core).token.length = 0 := by
      rw [windowReset_token, ha]
      rfl
    by_cases hs : shouldSend (windowReset now a1.core) = true
    · simp [processItem, hs, post_empty_token _ p.body np htok]
    · rw [Bool.not_eq_true] at hs
      simp [processItem, hs]

/-- Witness for claim C7 at a concrete input. -/
theorem send_empty_token_noop_witness :
    (syncSend (fun _ => (0 : ℚ)) (fun _ => .status 500) ⟨true⟩
      ⟨"", 0, 0, 0, 3, true⟩).2.1 = none := by
  have h := send_empty_token_noop (fun _ => (0 : ℚ)) (fun _ => .status 500)
    ⟨true⟩ ⟨"", 0, 0, 0, 3, true⟩ rfl
  exact h.1

/-- Claim C10: for the synchronous transport with an empty access token,
the clock inside the window and the rate limit not yet reached, Send
returns nil and performs no IO, and its only state change is the
per-minute counter increasing by one. -/
theorem syncSend_empty_token_counts (times : Nat → ℚ) (net : Nat → PostOutcome)
    (b : Body) (s : TransportCore)
    (h : s.token = "")
    (h1 : 0 ≤ times 0 - s.startTime) (h2 : times 0 - s.startTime < 60)
    (h3 : s.itemsPerMinute = 0 ∨ s.perMinCounter < s.itemsPerMinute) :
    syncSend times net b s
      = ({ s with perMinCounter := s.perMinCounter + 1 }, none, []) := by
  unfold syncSend
  have hw : windowReset (times 0) s = s := windowReset_eq_self h1 h2
  have hsend : shouldSend s = true := by
    unfold shouldSend
    rw [if_neg]
    rintro ⟨hx, hy⟩
    rcases h3 with h3 | h3 <;> omega
  have hp : post s.token b (net 0) = ⟨false, none, []⟩ :=
    post_empty_token _ b _ (by rw [h]; rfl)
  have hd := doSend_post_none times net b 0 s s.retryAttempts false []
    (by rw [hw]; exact hsend) (by rw [hw]; exact hp)
  rw [hd, hw]

/-- Witness for claim C10 at a concrete input: counter 2 with limit 5
moves to 3 with no events under an empty token. -/
theorem syncSend_empty_token_counts_witness :
    syncSend (fun _ => (10 : ℚ)) (fun _ => .status 500) ⟨true⟩
      ⟨"", 5, 2, 0, 3, true⟩
      = (⟨"", 5, 3, 0, 3, true⟩, none, []) := by
  have h := syncSend_empty_token_counts (fun _ => (10 : ℚ))
    (fun _ => .status 500) ⟨true⟩ ⟨"", 5, 2, 0, 3, true⟩ rfl
    (by norm_num) (by norm_num) (Or.inr (by decide))
  exact h

/-! ## Helper lemmas: the asynchronous transport -/

/-- asyncSend with its let bindings flattened into one decision tree. -/
theorem asyncSend_eq (sel : Bool) (b : Body) (s : AsyncState) :
    asyncSend sel b s =
      if s.queue.length < s.buffer then
        if s.ctxDone && sel then
          ({ s with pending := s.pending + 1 }, some .contextCanceled,
           [.stderrPayload])
        else if s.closed then
          if s.queue.length = 0 then
            ({ s with pending := s.pending + 1 - 1 }, some .channelClosed, [])
          else
            ({ s with pending := s.pending + 1 }, none, [])
        else
          ({ s with
              pending := s.pending + 1
              queue := s.queue ++ [⟨b, s.core.retryAttempts⟩] }, none, [])
      else
        (s, some .bufferFull, stderrEv s.core) := rfl

/-! ## Claims C1, C8, C9 -/

/-- Claim C1 counterexample: a channel that has been closed while an item
is still buffered, with room left (capacity two): Send returns nil even
though the channel is closed, and the payload is not enqueued - refuting
the claimed equivalence that Send errors exactly on a full or closed
queue, returning ErrChannelClosed on the latter. -/
theorem asyncSend_closed_nonempty_returns_nil :
    ({ core := ⟨"t", 0, 0, 0, 3, true⟩, buffer := 2, queue := [⟨⟨true⟩, 3⟩],
       closed := true, ctxDone := false, pending := 1 } : AsyncState).closed
      = true
  ∧ ({ core := ⟨"t", 0, 0, 0, 3, true⟩, buffer := 2, queue := [⟨⟨true⟩, 3⟩],
       closed := true, ctxDone := false, pending := 1 } : AsyncState).queue.length
      < 2
  ∧ (asyncSend false ⟨true⟩
      { core := ⟨"t", 0, 0, 0, 3, true⟩, buffer := 2, queue := [⟨⟨true⟩, 3⟩],
        closed := true, ctxDone := false, pending := 1 }).2.1 = none
  ∧ (asyncSend false ⟨true⟩
      { core := ⟨"t", 0, 0, 0, 3, true⟩, buffer := 2, queue := [⟨⟨true⟩, 3⟩],
        closed := true, ctxDone := false, pending := 1 }).1.queue
      = [⟨⟨true⟩, 3⟩] := by
  refine ⟨rfl, by decide, rfl, rfl⟩

/-- Claim C1 (amended): Send returns ErrBufferFull exactly when the queue
is full at entry, never enqueueing in that case; given room, the
cancellation branch (context done and selected by the runtime) returns the
context error without enqueueing; otherwise a closed channel yields
ErrChannelClosed when the queue is empty and nil with the payload silently
dropped when items remain; in every other case Send returns nil having
enqueued the payload with the configured retry budget. -/
theorem asyncSend_error_cases (sel : Bool) (b : Body) (s : AsyncState) :
    ((asyncSend sel b s).2.1 = some .bufferFull ↔ ¬ s.queue.length < s.buffer)
  ∧ (¬ s.queue.length < s.buffer → (asyncSend sel b s).1.queue = s.queue)
  ∧ (s.queue.length < s.buffer → s.ctxDone = true → sel = true →
       (asyncSend sel b s).2.1 = some .contextCanceled
     ∧ (asyncSend sel b s).1.queue = s.queue)
  ∧ (s.queue.length < s.buffer → ¬ (s.ctxDone = true ∧ sel = true) →
     s.closed = true → s.queue = [] →
       (asyncSend sel b s).2.1 = some .channelClosed
     ∧ (asyncSend sel b s).1.queue = s.queue)
  ∧ (s.queue.length < s.buffer → ¬ (s.ctxDone = true ∧ sel = true) →
     s.closed = true → s.queue ≠ [] →
       (asyncSend sel b s).2.1 = none
     ∧ (asyncSend sel b s).1.queue = s.queue)
  ∧ (s.queue.length < s.buffer → ¬ (s.ctxDone = true ∧ sel = true) →
     s.closed = false →
       (asyncSend sel b s).2.1 = none
     ∧ (asyncSend sel b s).1.queue
         = s.queue ++ [⟨b, s.core.retryAttempts⟩]) := by
  rw [asyncSend_eq]
  by_cases hroom : s.queue.length < s.buffer
  · have hcsOf : ∀ (hnc : ¬ (s.ctxDone = true ∧ sel = true)),
        ((s.ctxDone && sel) = true) = False := by
      intro hnc
      apply eq_false
      intro hx
      rw [Bool.and_eq_true] at hx
      exact absurd hx hnc
    refine ⟨?_, ?_, ?_, ?_, ?_, ?_⟩
    · rw [if_pos hroom]
      constructor
      · intro h
        exfalso
        by_cases hcs : (s.ctxDone && sel) = true
        · rw [if_pos hcs] at h
          exact SendError.noConfusion (Option.some.inj h)
        · rw [if_neg hcs] at h
          by_cases hcl : s.closed = true
          · rw [if_pos hcl] at h
            by_cases hq : s.queue.length = 0
            · rw [if_pos hq] at h
              exact SendError.noConfusion (Option.some.inj h)
            · rw [if_neg hq] at h
              exact Option.noConfusion h
          · rw [if_neg hcl] at h
            exact Option.noConfusion h
      · intro h
        exact absurd hroom h
    · intro h
      exact absurd hroom h
    · intro _ hcd hsel
      rw [if_pos hroom, if_pos (by rw [hcd, hsel]; rfl)]
      exact ⟨rfl, rfl⟩
    · intro _ hnc hcl hq
      rw [if_pos hroom, if_neg (by rw [hcsOf hnc]; exact not_false),
        if_pos hcl, if_pos (by rw [hq]; rfl)]
      exact ⟨rfl, rfl⟩
    · intro _ hnc hcl hq
      rw [if_pos hroom, if_neg (by rw [hcsOf hnc]; exact not_false),
        if_pos hcl, if_neg (by simpa [List.length_eq_zero] using hq)]
      exact ⟨rfl, rfl⟩
    · intro _ hnc hcl
      rw [if_pos hroom, if_neg (by rw [hcsOf hnc]; exact not_false),
        if_neg (by rw [hcl]; exact Bool.false_ne_true)]
      exact ⟨rfl, rfl⟩
  · rw [if_neg hroom]
    refine ⟨⟨fun _ => hroom, fun _ => rfl⟩, fun _ => rfl, ?_, ?_, ?_, ?_⟩
    · intro h
      exact absurd h hroom
    · intro h
      exact absurd h hroom
    · intro h
      exact absurd h hroom
    · intro h
      exact absurd h hroom

/-- Witness for claim C1 at a concrete input: an open, ready transport
accepts the payload, returns nil, and enqueues it. -/
theorem asyncSend_error_cases_witness :
    (asyncSend false ⟨true⟩
      { core := ⟨"t", 0, 0, 0, 3, true⟩, buffer := 1, queue := [],
        closed := false, ctxDone := false, pending := 0 }).2.1 = none
  ∧ (asyncSend false ⟨true⟩
      { core := ⟨"t", 0, 0, 0, 3, true⟩, buffer := 1, queue := [],
        closed := false, ctxDone := false, pending := 0 }).1.queue
      = [⟨⟨true⟩, 3⟩] := by
  have h := (asyncSend_error_cases false ⟨true⟩
    { core := ⟨"t", 0, 0, 0, 3, true⟩, buffer := 1, queue := [],
      closed := false, ctxDone := false, pending := 0 }).2.2.2.2.2
    (by decide) (by simp) rfl
  exact h

/-- Claim C8 (code bug): at a concrete input with the cancellation context
done, an open non-full channel, and the runtime selecting the cancellation
case, AsyncTransport.Send increments the pending waitgroup counter, does
not enqueue the payload, and returns the context error; since the payload
never reaches the worker, that counter increment is never matched by a
decrement and a caller blocked in Wait() hangs.  The background worker
cancellation path, by contrast, does decrement the counter before
exiting. -/
theorem asyncSend_cancel_pending_leak :
    (asyncSend true ⟨true⟩
      { core := ⟨"t", 0, 0, 0, 3, true⟩, buffer := 1, queue := [],
        closed := false, ctxDone := true, pending := 0 }).1.pending = 1
  ∧ (asyncSend true ⟨true⟩
      { core := ⟨"t", 0, 0, 0, 3, true⟩, buffer := 1, queue := [],
        closed := false, ctxDone := true, pending := 0 }).1.queue = []
  ∧ (asyncSend true ⟨true⟩
      { core := ⟨"t", 0, 0, 0, 3, true⟩, buffer := 1, queue := [],
        closed := false, ctxDone := true, pending := 0 }).2.1
      = some .contextCanceled
  ∧ (processItem 30 (.netErr true) true ⟨⟨true⟩, 2⟩
      { core := ⟨"t", 0, 0, 0, 3, true⟩, buffer := 2, queue := [],
        closed := false, ctxDone := true, pending := 1 }).1.pending = 0
  ∧ (processItem 30 (.netErr true) true ⟨⟨true⟩, 2⟩
      { core := ⟨"t", 0, 0, 0, 3, true⟩, buffer := 2, queue := [],
        closed := false, ctxDone := true, pending := 1 }).2.2 = .exited := by
  have hw : windowReset 30 (⟨"t", 0, 0, 0, 3, true⟩ : TransportCore)
      = ⟨"t", 0, 0, 0, 3, true⟩ :=
    windowReset_eq_self (by show (0 : ℚ) ≤ 30 - 0; norm_num)
      (by show (30 : ℚ) - 0 < 60; norm_num)
  have hpost : post "t" ⟨true⟩ (.netErr true)
      = ⟨true, some (.network true), [.httpPost]⟩ := rfl
  refine ⟨rfl, rfl, rfl, ?_, ?_⟩ <;>
    simp [processItem, hw, hpost, shouldSend, stderrEv]

/-- Claim C9: when the worker hits a temporary (retryable) failure for an
item with retry budget left but finds the channel full at the re-enqueue
select (concurrent producers having refilled it), the retry is abandoned:
the item is not re-enqueued, the payload is written to the diagnostic sink
when PrintPayloadOnError is set, and the waitgroup counter is decremented
so the item counts as processed despite its unspent budget. -/
theorem worker_retry_full_channel_drop (now : ℚ) (net : PostOutcome)
    (sel : Bool) (p : QItem) (a1 : AsyncState) (e : SendError)
    (hs : shouldSend (windowReset now a1.core) = true)
    (hp : post (windowReset now a1.core).token p.body net
            = ⟨true, some e, [.httpPost]⟩)
    (hb : 0 < p.retriesLeft)
    (hctx : (a1.ctxDone && sel) = false)
    (hfull : ¬ a1.queue.length < a1.buffer) :
    processItem now net sel p a1
      = ({ a1 with
            core := windowReset now a1.core
            pending := a1.pending - 1 },
         [.httpPost] ++ stderrEv (windowReset now a1.core), .next) := by
  simp [processItem, hs, hp, hb, hctx, hfull]

/-- Witness for claim C9 at a concrete input: budget two remaining, channel
refilled to capacity, temporary network failure; the item is dropped to the
diagnostic sink and counted as processed. -/
theorem worker_retry_full_channel_drop_witness :
    processItem 30 (.netErr true) false ⟨⟨true⟩, 2⟩
      { core := ⟨"t", 0, 0, 0, 3, true⟩, buffer := 1, queue := [⟨⟨true⟩, 3⟩],
        closed := false, ctxDone := false, pending := 2 }
      = ({ core := ⟨"t", 0, 0, 0, 3, true⟩, buffer := 1,
           queue := [⟨⟨true⟩, 3⟩], closed := false, ctxDone := false,
           pending := 1 },
         [.httpPost, .stderrPayload], .next) := by
  have hw : windowReset 30 (⟨"t", 0, 0, 0, 3, true⟩ : TransportCore)
      = ⟨"t", 0, 0, 0, 3, true⟩ :=
    windowReset_eq_self (by show (0 : ℚ) ≤ 30 - 0; norm_num)
      (by show (30 : ℚ) - 0 < 60; norm_num)
  have h := worker_retry_full_channel_drop 30 (.netErr true) false ⟨⟨true⟩, 2⟩
    { core := ⟨"t", 0, 0, 0, 3, true⟩, buffer := 1, queue := [⟨⟨true⟩, 3⟩],
      closed := false, ctxDone := false, pending := 2 }
    (.network true)
    (by show shouldSend (windowReset 30 (⟨"t", 0, 0, 0, 3, true⟩ :
          TransportCore)) = true
        rw [hw]
        rfl)
    (by show post (windowReset 30 (⟨"t", 0, 0, 0, 3, true⟩ :
          TransportCore)).token ⟨true⟩ (.netErr true) = _
        rw [hw]
        rfl)
    (by decide) (by decide) (by decide)
  simp only [hw] at h
  simpa [stderrEv] using h

/-! ## Claims C4, C5, C6 -/

/-- Claim C4: for every error whose cause chain is finite with N links,
errorBody produces a trace chain of exactly N entries, ordered with the
originally reported error first and the deepest root cause last (witnessed
by the sequence of entry messages equalling the sequence of messages along
the cause chain), and the chain length is always at least one - in
particular a plain error with no cause capability yields exactly one
entry. -/
theorem errorBody_chain_length_order (cfg : Configuration) (bs : Stack)
    (e : GoError) :
    ((errorBody cfg bs (some e)).1).map TraceEntry.message = chainMessages e
  ∧ ((errorBody cfg bs (some e)).1).length = causeChainLength e
  ∧ 1 ≤ ((errorBody cfg bs (some e)).1).length
  ∧ ∀ m : String,
      ((errorBody cfg bs (some (.plain m))).1).length = 1 := by
  have hm := errorChain_messages cfg.fingerprint bs e none
  have hlen : ((errorBody cfg bs (some e)).1).length = causeChainLength e := by
    have := congrArg List.length hm
    simpa [errorBody, chainMessages_length e] using this
  refine ⟨hm, hlen, ?_, ?_⟩
  · rw [hlen]; exact one_le_causeChainLength e
  · intro m
    have hm2 := errorChain_messages cfg.fingerprint bs (.plain m) none
    have := congrArg List.length hm2
    simpa [errorBody, chainMessages] using this

/-- Claim C5 counterexample: the chain of an error with its own one-frame
stack whose cause is a plain error (recorded with the empty stack, its
parent being a CauseStacker) has combined fingerprint equal to the head
stack fingerprint followed by the string 0: the empty-stack entry
contributes the empty-stack fingerprint 0, not nothing, refuting the
claimed skipping of empty stacks. -/
theorem errorBody_empty_stack_contributes :
    (errorBody ⟨true⟩ []
      (some (.cs "effect" (some [⟨"f.go", "m", 3⟩]) (some (.plain "cause"))))).2
      = stackFingerprint [⟨"f.go", "m", 3⟩] ++ "0"
  ∧ (errorBody ⟨true⟩ []
      (some (.cs "effect" (some [⟨"f.go", "m", 3⟩]) (some (.plain "cause"))))).2
      ≠ concatFingerprints
          (((errorBody ⟨true⟩ []
            (some (.cs "effect" (some [⟨"f.go", "m", 3⟩])
              (some (.plain "cause"))))).1).filter
            (fun t => !t.frames.isEmpty)) := by
  refine ⟨by decide, by decide⟩

/-- Claim C5 (amended): with fingerprinting enabled, the combined
fingerprint returned by errorBody is the concatenation, in chain order, of
every chain entry stack fingerprint, empty stacks included - each empty
stack contributes the empty-stack fingerprint, the string 0, rather than
nothing; for a two-entry chain E2 caused by E1 where both errors expose
their own stacks, the result is the fingerprint of the E2 stack followed
by the fingerprint of the E1 stack. -/
theorem errorBody_fingerprint_concat (bs : Stack) (e : GoError)
    (m1 m2 : String) (s1 s2 : Stack) :
    (errorBody ⟨true⟩ bs (some e)).2
      = concatFingerprints (errorBody ⟨true⟩ bs (some e)).1
  ∧ stackFingerprint [] = "0"
  ∧ (errorBody ⟨true⟩ bs
        (some (.cs m2 (some s2) (some (.cs m1 (some s1) none))))).2
      = stackFingerprint s2 ++ stackFingerprint s1 := by
  refine ⟨errorChain_snd_concat bs e none, by decide, ?_⟩
  simp [errorBody, errorChain, getOrBuildStack, buildTrace]

/-- Claim C6: in the chain walk, an error exposing the Stack capability
supplies its own stack (a nil stack being recorded as the empty stack); an
error without the capability gets a freshly captured stack when the parent
does not expose the capability either (including the first iteration where
the parent is nil), and the empty stack when the parent does expose it. -/
theorem getOrBuildStack_cases (bs : Stack) :
    (∀ (m : String) (s : Stack) (c : Option GoError) (p : Option GoError),
        getOrBuildStack bs (some (.cs m (some s) c)) p = s)
  ∧ (∀ (m : String) (c : Option GoError) (p : Option GoError),
        getOrBuildStack bs (some (.cs m none c)) p = [])
  ∧ (∀ m : String, getOrBuildStack bs (some (.plain m)) none = bs)
  ∧ (∀ m m2 : String,
        getOrBuildStack bs (some (.plain m)) (some (.plain m2)) = bs)
  ∧ (∀ (m m2 : String) (os : Option Stack) (c : Option GoError),
        getOrBuildStack bs (some (.plain m)) (some (.cs m2 os c)) = []) :=
  ⟨fun _ _ _ _ => rfl, fun _ _ _ => rfl, fun _ => rfl, fun _ _ => rfl,
   fun _ _ _ _ => rfl⟩

end Rollbar
